import Mathlib

/-!
Shallow embedding of the record-access layer of `pkg/db/operations.go`
(WhatsUpKent): lookup and upsert operations for Scrape, Event and Location
records against a dgraph store, plus a count aggregation.

The store and the JSON (un)marshalling of the record structs are external
to the file under verification, so they are modelled as oracles: a
`Client` says what the store answers to each query or mutation, and a
`Codecs` bundle says how the (not-in-src) record struct tags decode and
encode.  Each embedded operation returns its Go result (a pointer/error
pair, or a runtime panic) together with the trace of store requests it
issued, so that read-only-ness and "exactly one mutation" are provable.
-/

namespace WhatsUpKent

/-- A Go `error` value, modelled by its message (as produced by
`fmt.Errorf` / `errors.New`). -/
structure GoError where
  msg : String
deriving DecidableEq, Repr

/-- A parsed JSON value (integers suffice for the numbers that occur:
dgraph counts). -/
inductive Json where
  | null : Json
  | bool (b : Bool) : Json
  | num (n : Int) : Json
  | str (s : String) : Json
  | arr (elems : List Json) : Json
  | obj (fields : List (String × Json)) : Json
deriving Repr

/-- The byte payload of a store response, as seen by `json.Unmarshal`:
either bytes that are not valid JSON (unmarshalling fails with the given
syntax error), or a parsed JSON value. -/
inductive Body where
  | invalid (e : GoError) : Body
  | val (j : Json) : Body
deriving Repr

/-- The `api.Response` of a mutation: the store's assignment map of newly
minted uids. -/
structure ApiResponse where
  uids : List (String × String)
deriving DecidableEq, Repr

/-- One request issued to the store during a call: a query on a read-only
transaction (`NewReadOnlyTxn` + `QueryWithVars`/`Query`), or a mutation on
a read-write transaction (`NewTxn` + `Mutate` with the given `CommitNow`
flag and `SetJson` payload). -/
inductive Request where
  | query (readOnly : Bool) (q : String) (vars : List (String × String)) : Request
  | mutate (commitNow : Bool) (setJson : Json) : Request
deriving Repr

/-- The outcome of a Go function returning `(*T, error)`: a normal return
carrying the (possibly nil) pointer and the (possibly nil) error, or a
runtime panic. -/
inductive GoResult (α : Type) where
  | ret (val : Option α) (err : Option GoError) : GoResult α
  | panic (msg : String) : GoResult α
deriving Repr

/-- The store as seen by one call: what `QueryWithVars` (resp. `Query`,
with an empty variable map) answers for a query, and what `Mutate` answers
for a `SetJson` payload.  A transport or query failure is the `.error`
case; otherwise the response body is returned. -/
structure Client where
  queryResp : String → List (String × String) → Except GoError Body
  mutateResp : Json → Except GoError ApiResponse

/-- The dgraph sentinel transaction-abort error `y.ErrAborted`. -/
def ErrAborted : GoError := ⟨"Transaction has been aborted. Please retry"⟩

/-- Field lookup in a JSON object as `encoding/json` resolves a struct
field tag: with duplicate keys the later value wins.  (Go additionally
falls back to a case-insensitive match; no claim here turns on that and it
is not modelled.) -/
def lookupField (key : String) (fields : List (String × Json)) : Option Json :=
  fields.foldl (fun acc kv => if kv.1 = key then some kv.2 else acc) none

/-- Unmarshalling a JSON value into a Go slice field `[]T`, given the
element decoder: `null` leaves the slice nil, an array decodes
element-wise, anything else is a type error. -/
def decodeSlice (dec : Json → Except GoError α) : Json → Except GoError (List α)
  | Json.null => Except.ok []
  | Json.arr elems => elems.mapM dec
  | _ => Except.error ⟨"json: cannot unmarshal value into Go slice"⟩

/-- Unmarshal of the store response into a one-field envelope struct
`Root \x7b K []T json:key \x7d`, as `json.Unmarshal(resp.Json, &r)` does:
invalid bytes fail with the syntax error; a JSON `null` or an object
without the key leaves the slice nil (decoding to `[]`); an object with
the key decodes the slice; any other top-level value is a type error. -/
def unmarshalRoot (dec : Json → Except GoError α) (key : String) (b : Body) :
    Except GoError (List α) :=
  match b with
  | Body.invalid e => Except.error e
  | Body.val Json.null => Except.ok []
  | Body.val (Json.obj fields) =>
      match lookupField key fields with
      | none => Except.ok []
      | some v => decodeSlice dec v
  | Body.val _ => Except.error ⟨"json: cannot unmarshal value into Go value of type Root"⟩

/-- Modelled from the spec: the denormalized Event projection hanging off
a Scrape (`scrape.found_event`: uid, event.id, event.title); the Go
definition of the record structs is not under `src/`. -/
structure EventRef where
  UID : String
  ID : String
  Title : String
deriving DecidableEq, Repr

/-- Modelled from the spec: the organiser projection of an Event
(`event.organiser`: uid, person.name). -/
structure PersonRef where
  UID : String
  Name : String
deriving DecidableEq, Repr

/-- Modelled from the spec: the module projection of an Event
(`event.part_of_module`: uid, module.code). -/
structure ModuleRef where
  UID : String
  Code : String
deriving DecidableEq, Repr

/-- Modelled from the spec: the location projection of an Event
(`event.location`: uid, location.id, location.name). -/
structure LocationRef where
  UID : String
  ID : String
  Name : String
deriving DecidableEq, Repr

/-- Modelled from the spec: the Scrape record — internal reference id
`UID` (string, empty when unset), external numeric id `ID` (Go `int`),
last-scraped timestamp, found events.  The file `operations.go` reads
`scrape.UID` and `scrape.ID`. -/
structure Scrape where
  UID : String
  ID : Int
  LastScraped : String
  FoundEvent : List EventRef
deriving DecidableEq, Repr

/-- Modelled from the spec: the Event record — internal reference id
`UID`, external string id `ID`, title, description, start/end timestamps,
and references to organiser, module and location.  The file
`operations.go` reads `event.UID` and `event.ID`. -/
structure Event where
  UID : String
  ID : String
  Title : String
  Description : String
  StartDate : String
  EndDate : String
  Organiser : Option PersonRef
  PartOfModule : Option ModuleRef
  Location : Option LocationRef
deriving DecidableEq, Repr

/-- Modelled from the spec: the Location record — internal reference id
`UID`, external string slug `ID`, display name, accessibility flag. -/
structure Location where
  UID : String
  ID : String
  Name : String
  DisabledAccess : Bool
deriving DecidableEq, Repr

/-- The Go zero value of `Scrape` (all-empty record). -/
def Scrape.zero : Scrape := ⟨"", 0, "", []⟩

/-- The Go zero value of `Event` (all-empty record). -/
def Event.zero : Event := ⟨"", "", "", "", "", "", none, none, none⟩

/-- The Go zero value of `Location` (all-empty record). -/
def Location.zero : Location := ⟨"", "", "", false⟩

/-- Modelled from the spec: the struct-tag-driven JSON codecs of the
record types (their Go definitions are not under `src/`); kept abstract —
`decX` is how `json.Unmarshal` decodes one envelope-array element into the
record, `marshalX` is `json.Marshal` of the record. -/
structure Codecs where
  decScrape : Json → Except GoError Scrape
  decEvent : Json → Except GoError Event
  decLocation : Json → Except GoError Location
  marshalScrape : Scrape → Except GoError Json
  marshalEvent : Event → Except GoError Json
  marshalLocation : Location → Except GoError Json

/-- Go `strconv.Itoa`: decimal rendering of an int (minus sign for
negatives), which `Int.repr` matches. -/
def strconvItoa (i : Int) : String := toString i

/-- The query text of `getScrapeWithID` (braces written `\x7b`/`\x7d`). -/
def findScrapeQ : String :=
  "query FindScrape($uid: string) \x7b\n\t\t\tfindScrape(func: uid($uid)) \x7b\n\t\t\t\tuid\n\t\t\t\tscrape.id\n\t\t\t\tscrape.last_scraped\n\t\t\t\tscrape.found_event \x7b\n\t\t\t\t\tuid\n\t\t\t\t\tevent.id\n\t\t\t\t\tevent.title\n\t\t\t\t\x7d\n\t\t\t\x7d\n\t\t\x7d\n\t"

/-- The query text of `getScrapeWithoutID`. -/
def findScrapeNoIDQ : String :=
  "query FindScrapeNoID($id: int) \x7b\n\t\t\tfindScrapeNoID(func: eq(scrape.id, $id)) \x7b\n\t\t\t\tuid\n\t\t\t\tscrape.id\n\t\t\t\tscrape.last_scraped\n\t\t\t\tscrape.found_event \x7b\n\t\t\t\t\tuid\n\t\t\t\t\tevent.id\n\t\t\t\t\tevent.title\n\t\t\t\t\x7d\n\t\t\t\x7d\n\t\t\x7d\n\t"

/-- The query text of `getEventWithUID`. -/
def findEventQ : String :=
  "query FindEvent($id: string) \x7b\n\t\t\tfindEvent(func: uid($id)) \x7b\n\t\t\t\tuid\n\t\t\t\tevent.id\n\t\t\t\tevent.title\n\t\t\t\tevent.description\n\t\t\t\tevent.start_date\n\t\t\t\tevent.end_date\n\t\t\t\tevent.organiser \x7b\n\t\t\t\t\tuid\n\t\t\t\t\tperson.name\n\t\t\t\t\x7d\n\t\t\t\tevent.part_of_module \x7b\n\t\t\t\t\tuid\n\t\t\t\t\tmodule.code\n\t\t\t\t\x7d\n\t\t\t\tevent.location \x7b\n\t\t\t\t\tuid\n\t\t\t\t\tlocation.id\n\t\t\t\t\tlocation.name\n\t\t\t\t\x7d\n\t\t\t\x7d\n\t\t\x7d\n\t"

/-- The query text of `getEventWithoutUID`. -/
def findEventNoUIDQ : String :=
  "query FindEventNoUID($id: string) \x7b\n\t\t\tfindEvent(func: eq(event.id, $id)) \x7b\n\t\t\t\tuid\n\t\t\t\tevent.id\n\t\t\t\tevent.title\n\t\t\t\tevent.description\n\t\t\t\tevent.start_date\n\t\t\t\tevent.end_date\n\t\t\t\tevent.organiser \x7b\n\t\t\t\t\tuid\n\t\t\t\t\tperson.name\n\t\t\t\t\x7d\n\t\t\t\tevent.part_of_module \x7b\n\t\t\t\t\tuid\n\t\t\t\t\tmodule.code\n\t\t\t\t\x7d\n\t\t\t\tevent.location \x7b\n\t\t\t\t\tuid\n\t\t\t\t\tlocation.id\n\t\t\t\t\tlocation.name\n\t\t\t\t\x7d\n\t\t\t\x7d\n\t\t\x7d\n\t"

/-- The query text of `GetLocationFromKentSlug`. -/
def findLocationQ : String :=
  "query FindLocationFromSlug($id: string) \x7b\n\t\t\tfindLocation(func: eq(location.id, $id)) \x7b\n\t\t\t\tuid\n\t\t\t\tlocation.id\n\t\t\t\tlocation.name\n\t\t\t\tlocation.disabled_access\n\t\t\t\x7d\n\t\t\x7d\n\t"

/-- The query text of `CountNodesWithField` — a constant: the field
filtered by `has(...)` is hardcoded to `location.id` and the function's
string argument does not occur in it. -/
def countQ : String :=
  "query Count \x7b\n\t\t\tnodeCount(func: has(location.id)) \x7b\n\t\t\t\tnodeCount: count(uid)\n\t\t\t\x7d\n\t\t\x7d\n\t\t"

/-- Embedding of `getScrapeWithID`: read-only query by internal uid; zero
decoded matches is the not-found error carrying the searched uid,
otherwise the first decoded record is returned.  (The single request is
issued as soon as the call reaches `QueryWithVars`, so it is the trace of
every branch.) -/
def getScrapeWithID (cod : Codecs) (c : Client) (scrape : Scrape) :
    GoResult Scrape × List Request :=
  let vars := [("$uid", scrape.UID)]
  (match c.queryResp findScrapeQ vars with
   | Except.error e => GoResult.ret none (some e)
   | Except.ok body =>
      match unmarshalRoot cod.decScrape ("findScrape") body with
      | Except.error e => GoResult.ret none (some e)
      | Except.ok [] =>
          GoResult.ret none (some ⟨"No Scrape found with id " ++ scrape.UID⟩)
      | Except.ok (first :: _) => GoResult.ret (some first) none,
   [Request.query true findScrapeQ vars])

/-- Embedding of `getScrapeWithoutID`: read-only query by external numeric
id (`strconv.Itoa(scrape.ID)`); zero decoded matches returns nil record
and nil error, otherwise the first decoded record. -/
def getScrapeWithoutID (cod : Codecs) (c : Client) (scrape : Scrape) :
    GoResult Scrape × List Request :=
  let vars := [("$id", strconvItoa scrape.ID)]
  (match c.queryResp findScrapeNoIDQ vars with
   | Except.error e => GoResult.ret none (some e)
   | Except.ok body =>
      match unmarshalRoot cod.decScrape ("findScrapeNoID") body with
      | Except.error e => GoResult.ret none (some e)
      | Except.ok [] => GoResult.ret none none
      | Except.ok (first :: _) => GoResult.ret (some first) none,
   [Request.query true findScrapeNoIDQ vars])

/-- Embedding of `GetScrape`: with-ID lookup when the internal uid is set,
otherwise the external-id lookup. -/
def GetScrape (cod : Codecs) (c : Client) (scrape : Scrape) :
    GoResult Scrape × List Request :=
  if scrape.UID ≠ "" then getScrapeWithID cod c scrape
  else getScrapeWithoutID cod c scrape

/-- Embedding of `UpsertScrape`: marshal, then one `Mutate` with
`CommitNow`; the marshal error or the mutation error is returned
unchanged (no mutation is issued when marshalling fails). -/
def UpsertScrape (cod : Codecs) (c : Client) (scrape : Scrape) :
    GoResult ApiResponse × List Request :=
  match cod.marshalScrape scrape with
  | Except.error e => (GoResult.ret none (some e), [])
  | Except.ok pb =>
      match c.mutateResp pb with
      | Except.error e => (GoResult.ret none (some e), [Request.mutate true pb])
      | Except.ok assigned => (GoResult.ret (some assigned) none, [Request.mutate true pb])

/-- Embedding of `getEventWithUID`: read-only query by internal uid; zero
decoded matches is the not-found error carrying the searched uid,
otherwise the first decoded record. -/
def getEventWithUID (cod : Codecs) (c : Client) (event : Event) :
    GoResult Event × List Request :=
  let vars := [("$id", event.UID)]
  (match c.queryResp findEventQ vars with
   | Except.error e => GoResult.ret none (some e)
   | Except.ok body =>
      match unmarshalRoot cod.decEvent ("findEvent") body with
      | Except.error e => GoResult.ret none (some e)
      | Except.ok [] =>
          GoResult.ret none (some ⟨"No Event found with uid " ++ event.UID⟩)
      | Except.ok (first :: _) => GoResult.ret (some first) none,
   [Request.query true findEventQ vars])

/-- Embedding of `getEventWithoutUID`: read-only query by the external
string id; zero decoded matches returns nil record and nil error,
otherwise the first decoded record. -/
def getEventWithoutUID (cod : Codecs) (c : Client) (event : Event) :
    GoResult Event × List Request :=
  let vars := [("$id", event.ID)]
  (match c.queryResp findEventNoUIDQ vars with
   | Except.error e => GoResult.ret none (some e)
   | Except.ok body =>
      match unmarshalRoot cod.decEvent ("findEvent") body with
      | Except.error e => GoResult.ret none (some e)
      | Except.ok [] => GoResult.ret none none
      | Except.ok (first :: _) => GoResult.ret (some first) none,
   [Request.query true findEventNoUIDQ vars])

/-- Embedding of `GetEvent`: with-UID lookup when the internal uid is set,
otherwise the external-id lookup. -/
def GetEvent (cod : Codecs) (c : Client) (event : Event) :
    GoResult Event × List Request :=
  if event.UID ≠ "" then getEventWithUID cod c event
  else getEventWithoutUID cod c event

/-- Embedding of `UpsertEvent`: marshal, then one `Mutate` with
`CommitNow`.  The source compares the mutation error against
`y.ErrAborted` with an empty branch body; both paths return the error
unchanged. -/
def UpsertEvent (cod : Codecs) (c : Client) (event : Event) :
    GoResult ApiResponse × List Request :=
  match cod.marshalEvent event with
  | Except.error jsonErr => (GoResult.ret none (some jsonErr), [])
  | Except.ok pb =>
      match c.mutateResp pb with
      | Except.error upsertErr =>
          if upsertErr = ErrAborted then
            (GoResult.ret none (some upsertErr), [Request.mutate true pb])
          else
            (GoResult.ret none (some upsertErr), [Request.mutate true pb])
      | Except.ok assigned => (GoResult.ret (some assigned) none, [Request.mutate true pb])

/-- Embedding of `GetLocationFromKentSlug`: read-only query by the
external slug; zero decoded matches returns nil record and nil error,
otherwise the first decoded record. -/
def GetLocationFromKentSlug (cod : Codecs) (c : Client) (slug : String) :
    GoResult Location × List Request :=
  let vars := [("$id", slug)]
  (match c.queryResp findLocationQ vars with
   | Except.error e => GoResult.ret none (some e)
   | Except.ok body =>
      match unmarshalRoot cod.decLocation ("findLocation") body with
      | Except.error e => GoResult.ret none (some e)
      | Except.ok [] => GoResult.ret none none
      | Except.ok (first :: _) => GoResult.ret (some first) none,
   [Request.query true findLocationQ vars])

/-- Embedding of `UpsertLocation`: marshal, then one `Mutate` with
`CommitNow`; the marshal error or the mutation error is returned
unchanged. -/
def UpsertLocation (cod : Codecs) (c : Client) (loc : Location) :
    GoResult ApiResponse × List Request :=
  match cod.marshalLocation loc with
  | Except.error e => (GoResult.ret none (some e), [])
  | Except.ok pb =>
      match c.mutateResp pb with
      | Except.error e => (GoResult.ret none (some e), [Request.mutate true pb])
      | Except.ok assigned => (GoResult.ret (some assigned) none, [Request.mutate true pb])

/-- The element decoder of the count envelope: the anonymous struct
`\x7b NodeCount int json:nodeCount \x7d` of `CountNodesWithField`.  A JSON
`null` or an object without the key leaves the zero value; an integer
fills the field; anything else is a type error. -/
def decodeNodeCountElem : Json → Except GoError Int
  | Json.null => Except.ok 0
  | Json.obj fields =>
      match lookupField ("nodeCount") fields with
      | none => Except.ok 0
      | some Json.null => Except.ok 0
      | some (Json.num n) => Except.ok n
      | some _ => Except.error ⟨"json: cannot unmarshal value into Go struct field of type int"⟩
  | _ => Except.error ⟨"json: cannot unmarshal value into Go value of type struct"⟩

/-- Embedding of `CountNodesWithField`: issues the constant count query
`countQ` on a read-only transaction (the argument `f` is never read), then
dereferences the first element of the decoded aggregate list without a
length check — an empty list is a runtime index-out-of-range panic. -/
def CountNodesWithField (c : Client) (f : String) :
    GoResult Int × List Request :=
  (match c.queryResp countQ [] with
   | Except.error e => GoResult.ret none (some e)
   | Except.ok body =>
      match unmarshalRoot decodeNodeCountElem ("nodeCount") body with
      | Except.error e => GoResult.ret none (some e)
      | Except.ok [] => GoResult.panic "runtime error: index out of range [0] with length 0"
      | Except.ok (n :: _) => GoResult.ret (some n) none,
   [Request.query true countQ []])

/-- The common shape of the three upsert functions, abstracted over the
record marshaller: marshal, then one `Mutate` with `CommitNow`, every
error returned unchanged.  Used to state that the three upserts are
behaviorally equal modulo the record type. -/
def upsertGeneric {α : Type} (marshal : α → Except GoError Json) (c : Client) (a : α) :
    GoResult ApiResponse × List Request :=
  match marshal a with
  | Except.error e => (GoResult.ret none (some e), [])
  | Except.ok pb =>
      match c.mutateResp pb with
      | Except.error e => (GoResult.ret none (some e), [Request.mutate true pb])
      | Except.ok assigned => (GoResult.ret (some assigned) none, [Request.mutate true pb])

/-- One request acting on a store state: a query on a read-only
transaction reads without writing, so it leaves the state unchanged; a
committed mutation applies the store's set-mutation semantics
(`applyMut`, kept abstract). -/
def applyRequest {σ : Type} (applyMut : Json → σ → σ) (s : σ) : Request → σ
  | Request.query _ _ _ => s
  | Request.mutate _ pb => applyMut pb s

/-- The store state after a trace of requests. -/
def runTrace {σ : Type} (applyMut : Json → σ → σ) (s : σ) (tr : List Request) : σ :=
  tr.foldl (applyRequest applyMut) s

/-- A sample store: every query answers the empty JSON object (a
well-formed envelope with no keys), every mutation succeeds with an empty
assignment map. -/
def emptyObjClient : Client where
  queryResp := fun _ _ => Except.ok (Body.val (Json.obj []))
  mutateResp := fun _ => Except.ok ⟨[]⟩

/-- A sample response body carrying, for each envelope key the operations
use, a one-element array (and a one-element aggregate for the count). -/
def oneHitBody : Json :=
  Json.obj
    [("findScrape", Json.arr [Json.null]),
     ("findScrapeNoID", Json.arr [Json.null]),
     ("findEvent", Json.arr [Json.null]),
     ("findLocation", Json.arr [Json.null]),
     ("nodeCount", Json.arr [Json.obj [("nodeCount", Json.num 7)]])]

/-- A sample store: every query answers `oneHitBody`, every mutation
succeeds and assigns one uid. -/
def oneHitClient : Client where
  queryResp := fun _ _ => Except.ok (Body.val oneHitBody)
  mutateResp := fun _ => Except.ok ⟨[("blank-0", "0x1")]⟩

/-- A sample store whose mutations fail with the abort sentinel. -/
def abortClient : Client where
  queryResp := fun _ _ => Except.ok (Body.val (Json.obj []))
  mutateResp := fun _ => Except.error ErrAborted

/-- A sample codec bundle: each decoder returns the zero record, each
marshaller the empty JSON object. -/
def okCodecs : Codecs where
  decScrape := fun _ => Except.ok Scrape.zero
  decEvent := fun _ => Except.ok Event.zero
  decLocation := fun _ => Except.ok Location.zero
  marshalScrape := fun _ => Except.ok (Json.obj [])
  marshalEvent := fun _ => Except.ok (Json.obj [])
  marshalLocation := fun _ => Except.ok (Json.obj [])

/-- Whether `pat` is a leading segment of `s` (on character lists). -/
def leadsWith : List Char → List Char → Bool
  | [], _ => true
  | _ :: _, [] => false
  | a :: pat, b :: s => a == b && leadsWith pat s

/-- Whether the character sequence `pat` occurs contiguously in `s`. -/
def containsSeq (pat : List Char) : List Char → Bool
  | [] => leadsWith pat []
  | b :: s => leadsWith pat (b :: s) || containsSeq pat s

/-- A sample Scrape with its internal uid set. -/
def scrapeWithUID : Scrape := { Scrape.zero with UID := "0x2a" }

/-- A sample Event with its internal uid set. -/
def eventWithUID : Event := { Event.zero with UID := "0x2b" }

/-! ## Claims -/

/-- C1 (amended): the query `CountNodesWithField` sends does not depend on
`f` — for every client and any two field names the whole result (count and
trace) coincides, the single issued request is the constant hardcoded
query `countQ`, and that query filters on `has(location.id)`. -/
theorem countNodesWithField_field_independent (c : Client) (f g : String) :
    CountNodesWithField c f = CountNodesWithField c g
    ∧ (CountNodesWithField c f).2 = [Request.query true countQ []]
    ∧ containsSeq ("has(location.id)").toList countQ.toList = true :=
  ⟨rfl, rfl, rfl⟩

/-- C1 counterexample: at the concrete store `emptyObjClient` the claim
fails — `CountNodesWithField` behaves identically for the field names
"event.id" and "person.name", the single request it issues is the
constant query `countQ`, and that query does not mention `has(event.id)`
at all: it filters on `has(location.id)` instead. -/
theorem countNodesWithField_cex :
    CountNodesWithField emptyObjClient ("event.id")
      = CountNodesWithField emptyObjClient ("person.name")
    ∧ (CountNodesWithField emptyObjClient ("event.id")).2
      = [Request.query true countQ []]
    ∧ containsSeq ("has(event.id)").toList countQ.toList = false
    ∧ containsSeq ("has(location.id)").toList countQ.toList = true :=
  ⟨rfl, rfl, rfl, rfl⟩

/-- C2 counterexample: at the concrete store `emptyObjClient`, whose
response is the well-formed JSON object with the expected envelope key
missing (so the aggregate list decodes as empty), `CountNodesWithField`
panics with an index-out-of-range runtime error instead of returning a
decode error to the caller. -/
theorem countNodesWithField_panic_cex :
    (CountNodesWithField emptyObjClient ("location.id")).1
      = GoResult.panic "runtime error: index out of range [0] with length 0" := rfl

/-- C2 (amended): a store response that is not valid JSON, or whose shape
mismatches the envelope (non-object top level, key bound to a non-array
value, undecodable element), surfaces as the decode error; but a response
that decodes successfully to an empty aggregate list (e.g. the envelope
key missing) makes `CountNodesWithField` panic with index out of range
rather than return an error or a silent zero-value record. -/
theorem countNodesWithField_decode_behaviour (c : Client) (f : String) :
    (∀ e, c.queryResp countQ [] = Except.ok (Body.invalid e) →
        (CountNodesWithField c f).1 = GoResult.ret none (some e))
    ∧ (∀ b e, c.queryResp countQ [] = Except.ok b →
        unmarshalRoot decodeNodeCountElem ("nodeCount") b = Except.error e →
        (CountNodesWithField c f).1 = GoResult.ret none (some e))
    ∧ (∀ b, c.queryResp countQ [] = Except.ok b →
        unmarshalRoot decodeNodeCountElem ("nodeCount") b = Except.ok [] →
        (CountNodesWithField c f).1
          = GoResult.panic "runtime error: index out of range [0] with length 0") := by
  refine ⟨?_, ?_, ?_⟩
  · intro e h
    simp only [CountNodesWithField, h, unmarshalRoot]
  · intro b e hq hu
    simp only [CountNodesWithField, hq, hu]
  · intro b hq hu
    simp only [CountNodesWithField, hq, hu]

/-- C2 witness: the amended claim applied at the concrete store
`emptyObjClient`, whose envelope decodes to the empty aggregate list. -/
theorem countNodesWithField_decode_behaviour_witness :
    emptyObjClient.queryResp countQ [] = Except.ok (Body.val (Json.obj []))
    ∧ unmarshalRoot decodeNodeCountElem ("nodeCount") (Body.val (Json.obj []))
        = Except.ok []
    ∧ (CountNodesWithField emptyObjClient ("location.name")).1
        = GoResult.panic "runtime error: index out of range [0] with length 0" :=
  ⟨rfl, rfl,
    (countNodesWithField_decode_behaviour emptyObjClient ("location.name")).2.2
      (Body.val (Json.obj [])) rfl rfl⟩

/-- C3: when the internal uid is set and the lookup query succeeds but
decodes to zero records, `GetScrape` and `GetEvent` return a nil record
together with a non-nil error whose message carries the searched uid. -/
theorem get_withUID_notFound (cod : Codecs) (c : Client) (scrape : Scrape) (event : Event)
    (bs be : Body)
    (hs : scrape.UID ≠ "")
    (hqs : c.queryResp findScrapeQ [("$uid", scrape.UID)] = Except.ok bs)
    (hus : unmarshalRoot cod.decScrape ("findScrape") bs = Except.ok [])
    (he : event.UID ≠ "")
    (hqe : c.queryResp findEventQ [("$id", event.UID)] = Except.ok be)
    (hue : unmarshalRoot cod.decEvent ("findEvent") be = Except.ok []) :
    (GetScrape cod c scrape).1
      = GoResult.ret none (some ⟨"No Scrape found with id " ++ scrape.UID⟩)
    ∧ (GetEvent cod c event).1
      = GoResult.ret none (some ⟨"No Event found with uid " ++ event.UID⟩) := by
  constructor
  · unfold GetScrape
    rw [if_pos hs]
    simp only [getScrapeWithID, hqs, hus]
  · unfold GetEvent
    rw [if_pos he]
    simp only [getEventWithUID, hqe, hue]

/-- C3 witness: the not-found error at a concrete store answering the
empty JSON object, for a scrape and an event with their uids set. -/
theorem get_withUID_notFound_witness :
    scrapeWithUID.UID ≠ ""
    ∧ eventWithUID.UID ≠ ""
    ∧ (GetScrape okCodecs emptyObjClient scrapeWithUID).1
        = GoResult.ret none (some ⟨"No Scrape found with id " ++ scrapeWithUID.UID⟩)
    ∧ (GetEvent okCodecs emptyObjClient eventWithUID).1
        = GoResult.ret none (some ⟨"No Event found with uid " ++ eventWithUID.UID⟩) := by
  have h := get_withUID_notFound okCodecs emptyObjClient scrapeWithUID eventWithUID
    (Body.val (Json.obj [])) (Body.val (Json.obj []))
    (by decide) rfl rfl (by decide) rfl rfl
  exact ⟨by decide, by decide, h.1, h.2⟩

/-- C4: external-business-id lookups (scrape by numeric id, event by
string id, location by slug) that succeed but decode to zero matching
records return a nil record and a nil error — absence is a value, not an
error. -/
theorem get_external_absent (cod : Codecs) (c : Client) (scrape : Scrape) (event : Event)
    (slug : String) (bs be bl : Body)
    (hs : scrape.UID = "")
    (hqs : c.queryResp findScrapeNoIDQ [("$id", strconvItoa scrape.ID)] = Except.ok bs)
    (hus : unmarshalRoot cod.decScrape ("findScrapeNoID") bs = Except.ok [])
    (he : event.UID = "")
    (hqe : c.queryResp findEventNoUIDQ [("$id", event.ID)] = Except.ok be)
    (hue : unmarshalRoot cod.decEvent ("findEvent") be = Except.ok [])
    (hql : c.queryResp findLocationQ [("$id", slug)] = Except.ok bl)
    (hul : unmarshalRoot cod.decLocation ("findLocation") bl = Except.ok []) :
    (GetScrape cod c scrape).1 = GoResult.ret none none
    ∧ (GetEvent cod c event).1 = GoResult.ret none none
    ∧ (GetLocationFromKentSlug cod c slug).1 = GoResult.ret none none := by
  refine ⟨?_, ?_, ?_⟩
  · unfold GetScrape
    rw [if_neg (not_not_intro hs)]
    simp only [getScrapeWithoutID, hqs, hus]
  · unfold GetEvent
    rw [if_neg (not_not_intro he)]
    simp only [getEventWithoutUID, hqe, hue]
  · simp only [GetLocationFromKentSlug, hql, hul]

/-- C4 witness: absence as a value at a concrete store answering the empty
JSON object, for the all-zero scrape and event and a sample slug. -/
theorem get_external_absent_witness :
    Scrape.zero.UID = ""
    ∧ Event.zero.UID = ""
    ∧ (GetScrape okCodecs emptyObjClient Scrape.zero).1 = GoResult.ret none none
    ∧ (GetEvent okCodecs emptyObjClient Event.zero).1 = GoResult.ret none none
    ∧ (GetLocationFromKentSlug okCodecs emptyObjClient ("KEYNES")).1
        = GoResult.ret none none := by
  have h := get_external_absent okCodecs emptyObjClient Scrape.zero Event.zero ("KEYNES")
    (Body.val (Json.obj [])) (Body.val (Json.obj [])) (Body.val (Json.obj []))
    rfl rfl rfl rfl rfl rfl rfl rfl
  exact ⟨rfl, rfl, h.1, h.2.1, h.2.2⟩

/-- C5: when the internal uid is set, `GetScrape` and `GetEvent` select
the lookup-by-internal-id strategy, the single issued request carries only
the uid in its variables, and the whole behavior is independent of every
other field of the record — in particular of its external business id. -/
theorem get_internal_priority (cod : Codecs) (c : Client)
    (s1 s2 : Scrape) (e1 e2 : Event)
    (hsu : s1.UID = s2.UID) (hs : s1.UID ≠ "")
    (heu : e1.UID = e2.UID) (he : e1.UID ≠ "") :
    GetScrape cod c s1 = getScrapeWithID cod c s1
    ∧ GetScrape cod c s1 = GetScrape cod c s2
    ∧ (GetScrape cod c s1).2 = [Request.query true findScrapeQ [("$uid", s1.UID)]]
    ∧ GetEvent cod c e1 = getEventWithUID cod c e1
    ∧ GetEvent cod c e1 = GetEvent cod c e2
    ∧ (GetEvent cod c e1).2 = [Request.query true findEventQ [("$id", e1.UID)]] := by
  have h1 : GetScrape cod c s1 = getScrapeWithID cod c s1 := by
    unfold GetScrape; rw [if_pos hs]
  have h2 : GetScrape cod c s2 = getScrapeWithID cod c s2 := by
    unfold GetScrape; rw [if_pos (hsu ▸ hs)]
  have h3 : getScrapeWithID cod c s1 = getScrapeWithID cod c s2 := by
    unfold getScrapeWithID; rw [hsu]
  have h4 : GetEvent cod c e1 = getEventWithUID cod c e1 := by
    unfold GetEvent; rw [if_pos he]
  have h5 : GetEvent cod c e2 = getEventWithUID cod c e2 := by
    unfold GetEvent; rw [if_pos (heu ▸ he)]
  have h6 : getEventWithUID cod c e1 = getEventWithUID cod c e2 := by
    unfold getEventWithUID; rw [heu]
  refine ⟨h1, ?_, by rw [h1]; rfl, h4, ?_, by rw [h4]; rfl⟩
  · rw [h1, h2, h3]
  · rw [h4, h5, h6]

/-- C5 witness: a scrape and an event with both ids set behave exactly as
records with the same uid but a different external id. -/
theorem get_internal_priority_witness :
    scrapeWithUID.UID = ({ scrapeWithUID with ID := 99 } : Scrape).UID
    ∧ scrapeWithUID.UID ≠ ""
    ∧ GetScrape okCodecs emptyObjClient scrapeWithUID
        = GetScrape okCodecs emptyObjClient { scrapeWithUID with ID := 99 }
    ∧ GetEvent okCodecs emptyObjClient eventWithUID
        = GetEvent okCodecs emptyObjClient { eventWithUID with ID := ("x123") } := by
  have h := get_internal_priority okCodecs emptyObjClient
    scrapeWithUID { scrapeWithUID with ID := 99 }
    eventWithUID { eventWithUID with ID := ("x123") }
    rfl (by decide) rfl (by decide)
  exact ⟨rfl, by decide, h.2.1, h.2.2.2.2.1⟩

/-- C6: every lookup whose query succeeds and decodes to a non-empty
result list returns exactly the first record of the decoded list, with a
nil error. -/
theorem lookups_first_result (cod : Codecs) (c : Client) (scrape : Scrape) (event : Event)
    (slug : String) :
    (∀ b r rs, c.queryResp findScrapeQ [("$uid", scrape.UID)] = Except.ok b →
        unmarshalRoot cod.decScrape ("findScrape") b = Except.ok (r :: rs) →
        (getScrapeWithID cod c scrape).1 = GoResult.ret (some r) none)
    ∧ (∀ b r rs, c.queryResp findScrapeNoIDQ [("$id", strconvItoa scrape.ID)] = Except.ok b →
        unmarshalRoot cod.decScrape ("findScrapeNoID") b = Except.ok (r :: rs) →
        (getScrapeWithoutID cod c scrape).1 = GoResult.ret (some r) none)
    ∧ (∀ b r rs, c.queryResp findEventQ [("$id", event.UID)] = Except.ok b →
        unmarshalRoot cod.decEvent ("findEvent") b = Except.ok (r :: rs) →
        (getEventWithUID cod c event).1 = GoResult.ret (some r) none)
    ∧ (∀ b r rs, c.queryResp findEventNoUIDQ [("$id", event.ID)] = Except.ok b →
        unmarshalRoot cod.decEvent ("findEvent") b = Except.ok (r :: rs) →
        (getEventWithoutUID cod c event).1 = GoResult.ret (some r) none)
    ∧ (∀ b r rs, c.queryResp findLocationQ [("$id", slug)] = Except.ok b →
        unmarshalRoot cod.decLocation ("findLocation") b = Except.ok (r :: rs) →
        (GetLocationFromKentSlug cod c slug).1 = GoResult.ret (some r) none) := by
  refine ⟨?_, ?_, ?_, ?_, ?_⟩ <;> intro b r rs hq hu
  · simp only [getScrapeWithID, hq, hu]
  · simp only [getScrapeWithoutID, hq, hu]
  · simp only [getEventWithUID, hq, hu]
  · simp only [getEventWithoutUID, hq, hu]
  · simp only [GetLocationFromKentSlug, hq, hu]

/-- C6 witness: the first (and only) decoded record is returned at a
concrete store whose envelopes carry a one-element array. -/
theorem lookups_first_result_witness :
    oneHitClient.queryResp findScrapeQ [("$uid", scrapeWithUID.UID)]
      = Except.ok (Body.val oneHitBody)
    ∧ unmarshalRoot okCodecs.decScrape ("findScrape") (Body.val oneHitBody)
      = Except.ok [Scrape.zero]
    ∧ (getScrapeWithID okCodecs oneHitClient scrapeWithUID).1
      = GoResult.ret (some Scrape.zero) none
    ∧ (GetLocationFromKentSlug okCodecs oneHitClient ("TemplemanLibrary")).1
      = GoResult.ret (some Location.zero) none :=
  ⟨rfl, rfl,
    (lookups_first_result okCodecs oneHitClient scrapeWithUID Event.zero
        ("TemplemanLibrary")).1 (Body.val oneHitBody) Scrape.zero [] rfl rfl,
    (lookups_first_result okCodecs oneHitClient scrapeWithUID Event.zero
        ("TemplemanLibrary")).2.2.2.2 (Body.val oneHitBody) Location.zero [] rfl rfl⟩

/-- C7: each upsert submits exactly one set-mutation with `CommitNow` and
the marshalled payload; a serialization failure is returned as-is with no
mutation submitted; a store-side write failure (abort included) is
returned as-is with no retry — the trace stays a single mutation. -/
theorem upserts_one_mutation (cod : Codecs) (c : Client) (scrape : Scrape) (event : Event)
    (loc : Location) :
    (∀ e, cod.marshalScrape scrape = Except.error e →
        UpsertScrape cod c scrape = (GoResult.ret none (some e), []))
    ∧ (∀ pb, cod.marshalScrape scrape = Except.ok pb →
        (UpsertScrape cod c scrape).2 = [Request.mutate true pb]
        ∧ (∀ e, c.mutateResp pb = Except.error e →
            (UpsertScrape cod c scrape).1 = GoResult.ret none (some e))
        ∧ (∀ a, c.mutateResp pb = Except.ok a →
            (UpsertScrape cod c scrape).1 = GoResult.ret (some a) none))
    ∧ (∀ e, cod.marshalEvent event = Except.error e →
        UpsertEvent cod c event = (GoResult.ret none (some e), []))
    ∧ (∀ pb, cod.marshalEvent event = Except.ok pb →
        (UpsertEvent cod c event).2 = [Request.mutate true pb]
        ∧ (∀ e, c.mutateResp pb = Except.error e →
            (UpsertEvent cod c event).1 = GoResult.ret none (some e))
        ∧ (∀ a, c.mutateResp pb = Except.ok a →
            (UpsertEvent cod c event).1 = GoResult.ret (some a) none))
    ∧ (∀ e, cod.marshalLocation loc = Except.error e →
        UpsertLocation cod c loc = (GoResult.ret none (some e), []))
    ∧ (∀ pb, cod.marshalLocation loc = Except.ok pb →
        (UpsertLocation cod c loc).2 = [Request.mutate true pb]
        ∧ (∀ e, c.mutateResp pb = Except.error e →
            (UpsertLocation cod c loc).1 = GoResult.ret none (some e))
        ∧ (∀ a, c.mutateResp pb = Except.ok a →
            (UpsertLocation cod c loc).1 = GoResult.ret (some a) none)) := by
  refine ⟨?_, ?_, ?_, ?_, ?_, ?_⟩
  · intro e h; simp only [UpsertScrape, h]
  · intro pb h
    refine ⟨?_, ?_, ?_⟩
    · rcases hm : c.mutateResp pb with e | a <;> simp only [UpsertScrape, h, hm]
    · intro e hm; simp only [UpsertScrape, h, hm]
    · intro a hm; simp only [UpsertScrape, h, hm]
  · intro e h; simp only [UpsertEvent, h]
  · intro pb h
    refine ⟨?_, ?_, ?_⟩
    · rcases hm : c.mutateResp pb with e | a <;>
        simp only [UpsertEvent, h, hm, ite_self]
    · intro e hm; simp only [UpsertEvent, h, hm, ite_self]
    · intro a hm; simp only [UpsertEvent, h, hm]
  · intro e h; simp only [UpsertLocation, h]
  · intro pb h
    refine ⟨?_, ?_, ?_⟩
    · rcases hm : c.mutateResp pb with e | a <;> simp only [UpsertLocation, h, hm]
    · intro e hm; simp only [UpsertLocation, h, hm]
    · intro a hm; simp only [UpsertLocation, h, hm]

/-- C7 witness: a store abort on `UpsertEvent` is returned verbatim after
exactly one submitted mutation. -/
theorem upserts_one_mutation_witness :
    okCodecs.marshalEvent Event.zero = Except.ok (Json.obj [])
    ∧ abortClient.mutateResp (Json.obj []) = Except.error ErrAborted
    ∧ (UpsertEvent okCodecs abortClient Event.zero).2 = [Request.mutate true (Json.obj [])]
    ∧ (UpsertEvent okCodecs abortClient Event.zero).1 = GoResult.ret none (some ErrAborted) := by
  have h := (upserts_one_mutation okCodecs abortClient Scrape.zero Event.zero
    Location.zero).2.2.2.1 (Json.obj []) rfl
  exact ⟨rfl, rfl, h.1, h.2.1 ErrAborted rfl⟩

/-- The store state is unchanged by a trace consisting of one query. -/
theorem runTrace_single_query {σ : Type} (applyMut : Json → σ → σ) (st : σ)
    (ro : Bool) (q : String) (v : List (String × String)) :
    runTrace applyMut st [Request.query ro q v] = st := rfl

/-- C8: every lookup issues exactly one request, that request is a query
on a read-only transaction (never a mutation), and replaying the trace of
any lookup against any store state under any mutation semantics leaves the
state unchanged. -/
theorem lookups_leave_store_unchanged {σ : Type} (applyMut : Json → σ → σ) (st : σ)
    (cod : Codecs) (c : Client) (scrape : Scrape) (event : Event) (slug f : String) :
    (∃ q v, (GetScrape cod c scrape).2 = [Request.query true q v])
    ∧ runTrace applyMut st (GetScrape cod c scrape).2 = st
    ∧ (∃ q v, (GetEvent cod c event).2 = [Request.query true q v])
    ∧ runTrace applyMut st (GetEvent cod c event).2 = st
    ∧ (∃ q v, (GetLocationFromKentSlug cod c slug).2 = [Request.query true q v])
    ∧ runTrace applyMut st (GetLocationFromKentSlug cod c slug).2 = st
    ∧ (∃ q v, (CountNodesWithField c f).2 = [Request.query true q v])
    ∧ runTrace applyMut st (CountNodesWithField c f).2 = st := by
  have hsc : ∃ q v, (GetScrape cod c scrape).2 = [Request.query true q v] := by
    unfold GetScrape
    by_cases h : scrape.UID ≠ ""
    · rw [if_pos h]; exact ⟨_, _, rfl⟩
    · rw [if_neg h]; exact ⟨_, _, rfl⟩
  have hev : ∃ q v, (GetEvent cod c event).2 = [Request.query true q v] := by
    unfold GetEvent
    by_cases h : event.UID ≠ ""
    · rw [if_pos h]; exact ⟨_, _, rfl⟩
    · rw [if_neg h]; exact ⟨_, _, rfl⟩
  obtain ⟨qs, vs, hs⟩ := hsc
  obtain ⟨qe, ve, he⟩ := hev
  refine ⟨⟨qs, vs, hs⟩, ?_, ⟨qe, ve, he⟩, ?_, ⟨_, _, rfl⟩, rfl, ⟨_, _, rfl⟩, rfl⟩
  · rw [hs]; exact runTrace_single_query applyMut st true qs vs
  · rw [he]; exact runTrace_single_query applyMut st true qe ve

/-- C9: the three upsert functions are behaviorally equal modulo the
record type — each is exactly the generic marshal-then-single-mutation
shape `upsertGeneric` at its own marshaller; in particular the empty-body
comparison of the mutation error against the abort sentinel inside
`UpsertEvent` changes nothing. -/
theorem upserts_equivalent (cod : Codecs) (c : Client) (scrape : Scrape) (event : Event)
    (loc : Location) :
    UpsertEvent cod c event = upsertGeneric cod.marshalEvent c event
    ∧ UpsertScrape cod c scrape = upsertGeneric cod.marshalScrape c scrape
    ∧ UpsertLocation cod c loc = upsertGeneric cod.marshalLocation c loc := by
  refine ⟨?_, rfl, rfl⟩
  cases hm : cod.marshalEvent event with
  | error e => simp only [UpsertEvent, upsertGeneric, hm]
  | ok pb =>
    cases hmu : c.mutateResp pb with
    | error e => simp only [UpsertEvent, upsertGeneric, hm, hmu, ite_self]
    | ok a => simp only [UpsertEvent, upsertGeneric, hm, hmu]

/-- C10: a record with neither identity field set is not rejected:
`GetScrape` on the zero scrape takes the external-id branch and issues the
numeric-id query for the decimal string rendering of 0, and `GetEvent` on
the zero event issues the string-id query for the empty string. -/
theorem get_zero_value_probe (cod : Codecs) (c : Client) :
    GetScrape cod c Scrape.zero = getScrapeWithoutID cod c Scrape.zero
    ∧ strconvItoa Scrape.zero.ID = ("0")
    ∧ (GetScrape cod c Scrape.zero).2
      = [Request.query true findScrapeNoIDQ [("$id", ("0"))]]
    ∧ GetEvent cod c Event.zero = getEventWithoutUID cod c Event.zero
    ∧ Event.zero.ID = ("")
    ∧ (GetEvent cod c Event.zero).2
      = [Request.query true findEventNoUIDQ [("$id", (""))]] := by
  refine ⟨?_, rfl, rfl, ?_, rfl, rfl⟩
  · unfold GetScrape
    rw [if_neg (by decide)]
  · unfold GetEvent
    rw [if_neg (by decide)]

end WhatsUpKent
